import Mathlib

/-!
# grailkit.spout: the Sender and Receiver adapters of `_spout.cpp`

A shallow embedding of `src/grailkit/spout/_spout.cpp`.

The two C++ classes `Sender` and `Receiver` each hold one `Spout` member (the
handle of the external transport library) and a few integer fields, and every
method body is a single call on that member.  The library is not part of the
repository, so the embedding takes it as a parameter: a `Transport ω σ` gives,
for each library operation the adapter calls, its effect on the machine-wide
bus `ω` (what other endpoints can see) and on the handle `σ` (the `Spout`
object itself), together with the values it writes through reference
parameters and the boolean it returns.

Every `spout.X(...)` in the source becomes one application of `T.X` and one
entry `Call.X ...` appended to the call trace of the `World`.

* `unsigned int`, `GLuint`, `GLenum` are `Nat`; the adapter performs no
  arithmetic on them, it only passes them on.
* `const char*` / `char*` channel names are `String`; a `char*` the library
  may write through is returned next to the boolean.
* `unsigned int&` and `bool&` parameters are returned next to the boolean.
* `std::vector<unsigned char>` is `List Byte`.  The parameter is taken by
  value in both `send_image` and `receive_image`: the callee works on its own
  copy, which is destroyed when the call returns.
-/

namespace Spout

/-! ## Basic types -/

/-- An `unsigned char`. -/
abbrev Byte := Nat

/-- The OpenGL enumeration type. -/
abbrev GLenum := Nat

/-- The OpenGL unsigned integer type. -/
abbrev GLuint := Nat

/-- The value of `GL_RGBA` in `GL/GL.h`, the default format of `receive_image`. -/
def GL_RGBA : GLenum := 0x1908

/-- The value of `GL_RGB` in `GL/GL.h`. -/
def GL_RGB : GLenum := 0x1907

/-- The value of `GL_BGRA_EXT` in `GL/GL.h`. -/
def GL_BGRA_EXT : GLenum := 0x80E1

/-- The value of `GL_BGR_EXT` in `GL/GL.h`. -/
def GL_BGR_EXT : GLenum := 0x80E0

/-- Modelled from the spec: `bytes_per_pixel(gl_format)`, which the spec uses
to size pixel buffers and which no code of the repository computes.  The spec
fixes RGBA at 4 bytes (scenario S1); the three-component formats take 3 and
every other token is sized like RGBA. -/
def bytes_per_pixel (glFormat : GLenum) : Nat :=
  if glFormat = GL_RGB ∨ glFormat = GL_BGR_EXT then 3 else 4

/-! ## The transport library, as a parameter -/

/-- One call of the adapter on its `Spout` member, with the arguments passed. -/
inductive Call where
  | CreateSender (name : String) (width height : Nat)
  | UpdateSender (name : String) (width height : Nat)
  | ReleaseSender
  | SendImage (pixels : List Byte) (width height : Nat) (glFormat : GLenum)
      (bInvert : Bool) (HostFBO : GLuint)
  | SendTexture (TextureID TextureTarget : GLuint) (width height : Nat)
      (bInvert : Bool) (HostFBO : GLuint)
  | CreateReceiver (Sendername : String) (width height : Nat) (bUseActive : Bool)
  | ReceiveTexture (Sendername : String) (width height : Nat)
      (TextureID TextureTarget : GLuint) (bInvert : Bool) (HostFBO : GLuint)
  | ReceiveImage (Sendername : String) (width height : Nat) (pixels : List Byte)
      (glFormat : GLenum) (bInvert : Bool) (HostFBO : GLuint)
  | GetImageSize (Sendername : String) (width height : Nat) (bMemoryMode : Bool)
  | ReleaseReceiver
  deriving DecidableEq, Repr

/-- Result of a library operation that only returns a boolean. -/
structure Answer (ω σ : Type) where
  bus : ω
  spout : σ
  ok : Bool

/-- Result of a library operation that may also write the channel name and the
two dimensions through its reference parameters. -/
structure DimAnswer (ω σ : Type) where
  bus : ω
  spout : σ
  Sendername : String
  width : Nat
  height : Nat
  ok : Bool

/-- Result of `ReceiveImage`: as `DimAnswer`, plus the contents of the buffer
the `unsigned char*` argument points at when the operation returns. -/
structure ImageAnswer (ω σ : Type) where
  bus : ω
  spout : σ
  Sendername : String
  width : Nat
  height : Nat
  pixels : List Byte
  ok : Bool

/-- Result of `GetImageSize`: as `DimAnswer`, plus the `bool&` memory mode. -/
structure SizeAnswer (ω σ : Type) where
  bus : ω
  spout : σ
  Sendername : String
  width : Nat
  height : Nat
  bMemoryMode : Bool
  ok : Bool

/-- The operations of the `Spout` class of `Spout.h` that `_spout.cpp` uses.
`ω` is the state shared by all endpoints of the machine, `σ` the state of one
`Spout` object. -/
structure Transport (ω σ : Type) where
  /-- The default constructor `Spout()`. -/
  newSpout : σ
  /-- The destructor of the `Spout` class. -/
  deleteSpout : ω → σ → ω
  CreateSender : ω → σ → String → Nat → Nat → Answer ω σ
  UpdateSender : ω → σ → String → Nat → Nat → Answer ω σ
  ReleaseSender : ω → σ → ω × σ
  SendImage : ω → σ → List Byte → Nat → Nat → GLenum → Bool → GLuint → Answer ω σ
  SendTexture : ω → σ → GLuint → GLuint → Nat → Nat → Bool → GLuint → Answer ω σ
  CreateReceiver : ω → σ → String → Nat → Nat → Bool → DimAnswer ω σ
  ReceiveTexture : ω → σ → String → Nat → Nat → GLuint → GLuint → Bool → GLuint →
    DimAnswer ω σ
  ReceiveImage : ω → σ → String → Nat → Nat → List Byte → GLenum → Bool → GLuint →
    ImageAnswer ω σ
  GetImageSize : ω → σ → String → Nat → Nat → Bool → SizeAnswer ω σ
  ReleaseReceiver : ω → σ → ω × σ

/-- Everything outside the endpoint object: the shared bus and the trace of
the calls made on `Spout` members so far. -/
structure World (ω : Type) where
  bus : ω
  trace : List Call

/-- What a method leaves behind: the world, the object and the returned value. -/
structure Outcome (ω ε α : Type) where
  world : World ω
  self : ε
  ret : α

/-! ## class Sender -/

/-- The data members of `class Sender`. -/
structure Sender (σ : Type) where
  spout : σ
  width : Nat
  height : Nat

/-- Constructor `Sender()`: the body is empty.  `spout` is default-constructed; `width` and
`height` are not initialised, so their indeterminate contents are arguments. -/
def Sender.new {ω σ : Type} (T : Transport ω σ) (width height : Nat) : Sender σ :=
  { spout := T.newSpout, width := width, height := height }

/-- Destructor `~Sender()`: the body is empty (it holds a todo only); the member `spout`
is then destroyed by the destructor of its own class. -/
def Sender.delete {ω σ : Type} (T : Transport ω σ) (wd : World ω) (self : Sender σ) :
    World ω :=
  { bus := T.deleteSpout wd.bus self.spout, trace := wd.trace }

/-- Method `bool create(const char *name, unsigned int width, unsigned int height)`. -/
def Sender.create {ω σ : Type} (T : Transport ω σ) (wd : World ω) (self : Sender σ)
    (name : String) (width height : Nat) : Outcome ω (Sender σ) Bool :=
  let r := T.CreateSender wd.bus self.spout name width height
  { world := { bus := r.bus, trace := wd.trace ++ [Call.CreateSender name width height] },
    self := { self with spout := r.spout },
    ret := r.ok }

/-- Method `bool update(const char *name, unsigned int width, unsigned int height)`. -/
def Sender.update {ω σ : Type} (T : Transport ω σ) (wd : World ω) (self : Sender σ)
    (name : String) (width height : Nat) : Outcome ω (Sender σ) Bool :=
  let r := T.UpdateSender wd.bus self.spout name width height
  { world := { bus := r.bus, trace := wd.trace ++ [Call.UpdateSender name width height] },
    self := { self with spout := r.spout },
    ret := r.ok }

/-- Method `void release()`. -/
def Sender.release {ω σ : Type} (T : Transport ω σ) (wd : World ω) (self : Sender σ) :
    Outcome ω (Sender σ) Unit :=
  let r := T.ReleaseSender wd.bus self.spout
  { world := { bus := r.1, trace := wd.trace ++ [Call.ReleaseSender] },
    self := { self with spout := r.2 },
    ret := () }

/-- Method `bool send_image(std::vector<unsigned char> pixels, unsigned int width,
unsigned int height, GLenum glFormat, bool bInvert = false, GLuint HostFBO = 0)`.
The library is handed `pixels.data()`. -/
def Sender.send_image {ω σ : Type} (T : Transport ω σ) (wd : World ω) (self : Sender σ)
    (pixels : List Byte) (width height : Nat) (glFormat : GLenum) (bInvert : Bool)
    (HostFBO : GLuint) : Outcome ω (Sender σ) Bool :=
  let r := T.SendImage wd.bus self.spout pixels width height glFormat bInvert HostFBO
  { world := { bus := r.bus,
               trace := wd.trace ++
                 [Call.SendImage pixels width height glFormat bInvert HostFBO] },
    self := { self with spout := r.spout },
    ret := r.ok }

/-- Method `bool send_texture(GLuint TextureID, GLuint TextureTarget, unsigned int width,
unsigned int height, bool bInvert = true, GLuint HostFBO = 0)`. -/
def Sender.send_texture {ω σ : Type} (T : Transport ω σ) (wd : World ω) (self : Sender σ)
    (TextureID TextureTarget : GLuint) (width height : Nat) (bInvert : Bool)
    (HostFBO : GLuint) : Outcome ω (Sender σ) Bool :=
  let r := T.SendTexture wd.bus self.spout TextureID TextureTarget width height bInvert HostFBO
  { world := { bus := r.bus,
               trace := wd.trace ++
                 [Call.SendTexture TextureID TextureTarget width height bInvert HostFBO] },
    self := { self with spout := r.spout },
    ret := r.ok }

/-! ## class Receiver -/

/-- The data members of `class Receiver`. -/
structure Receiver (σ : Type) where
  spout : σ
  name : String
  width : Nat
  height : Nat

/-- What the caller of a `Receiver` method holds afterwards: the variables it
passed by reference and the returned boolean. -/
structure DimOut where
  Sendername : String
  width : Nat
  height : Nat
  ok : Bool
  deriving DecidableEq, Repr

/-- What the caller of `receive_image` holds afterwards: as `DimOut`, plus its
own pixel vector, which it passed by value. -/
structure ImageOut where
  Sendername : String
  width : Nat
  height : Nat
  pixels : List Byte
  ok : Bool
  deriving DecidableEq, Repr

/-- What the caller of `get_image_size` holds afterwards. -/
structure SizeOut where
  Sendername : String
  width : Nat
  height : Nat
  bMemoryMode : Bool
  ok : Bool
  deriving DecidableEq, Repr

/-- Constructor `Receiver()`: the body is empty.  `spout` is default-constructed; `name`,
`width` and `height` are not initialised, so their indeterminate contents are
arguments. -/
def Receiver.new {ω σ : Type} (T : Transport ω σ) (name : String) (width height : Nat) :
    Receiver σ :=
  { spout := T.newSpout, name := name, width := width, height := height }

/-- Destructor `~Receiver()`: the body is empty (it holds a todo only); the member `spout`
is then destroyed by the destructor of its own class. -/
def Receiver.delete {ω σ : Type} (T : Transport ω σ) (wd : World ω) (self : Receiver σ) :
    World ω :=
  { bus := T.deleteSpout wd.bus self.spout, trace := wd.trace }

/-- Method `bool create(char* Sendername, unsigned int &width, unsigned int &height,
bool bUseActive = false)`.  The parameters `width` and `height` hide the data
members of the same names; no member other than `spout` is touched. -/
def Receiver.create {ω σ : Type} (T : Transport ω σ) (wd : World ω) (self : Receiver σ)
    (Sendername : String) (width height : Nat) (bUseActive : Bool) :
    Outcome ω (Receiver σ) DimOut :=
  let r := T.CreateReceiver wd.bus self.spout Sendername width height bUseActive
  { world := { bus := r.bus,
               trace := wd.trace ++ [Call.CreateReceiver Sendername width height bUseActive] },
    self := { self with spout := r.spout },
    ret := { Sendername := r.Sendername, width := r.width, height := r.height, ok := r.ok } }

/-- Method `bool receive_texture(char* Sendername, unsigned int &width, unsigned int &height,
GLuint TextureID = 0, GLuint TextureTarget = 0, bool bInvert = false, GLuint HostFBO = 0)`. -/
def Receiver.receive_texture {ω σ : Type} (T : Transport ω σ) (wd : World ω)
    (self : Receiver σ) (Sendername : String) (width height : Nat)
    (TextureID TextureTarget : GLuint) (bInvert : Bool) (HostFBO : GLuint) :
    Outcome ω (Receiver σ) DimOut :=
  let r := T.ReceiveTexture wd.bus self.spout Sendername width height TextureID TextureTarget
    bInvert HostFBO
  { world := { bus := r.bus,
               trace := wd.trace ++
                 [Call.ReceiveTexture Sendername width height TextureID TextureTarget
                   bInvert HostFBO] },
    self := { self with spout := r.spout },
    ret := { Sendername := r.Sendername, width := r.width, height := r.height, ok := r.ok } }

/-- Method `bool receive_image(char* Sendername, unsigned int &width, unsigned int &height,
std::vector<unsigned char> pixels, GLenum glFormat = GL_RGBA, bool bInvert = false,
GLuint HostFBO = 0)`.  `pixels` is a by-value parameter: the library writes
through `pixels.data()` into the callee's copy (`r.pixels` below), which is
destroyed on return; the vector of the caller is the one it passed. -/
def Receiver.receive_image {ω σ : Type} (T : Transport ω σ) (wd : World ω)
    (self : Receiver σ) (Sendername : String) (width height : Nat) (pixels : List Byte)
    (glFormat : GLenum) (bInvert : Bool) (HostFBO : GLuint) :
    Outcome ω (Receiver σ) ImageOut :=
  let r := T.ReceiveImage wd.bus self.spout Sendername width height pixels glFormat
    bInvert HostFBO
  { world := { bus := r.bus,
               trace := wd.trace ++
                 [Call.ReceiveImage Sendername width height pixels glFormat bInvert HostFBO] },
    self := { self with spout := r.spout },
    ret := { Sendername := r.Sendername, width := r.width, height := r.height,
             pixels := pixels, ok := r.ok } }

/-- Method `bool get_image_size(char* Sendername, unsigned int &width, unsigned int &height,
bool &bMemoryMode)`. -/
def Receiver.get_image_size {ω σ : Type} (T : Transport ω σ) (wd : World ω)
    (self : Receiver σ) (Sendername : String) (width height : Nat) (bMemoryMode : Bool) :
    Outcome ω (Receiver σ) SizeOut :=
  let r := T.GetImageSize wd.bus self.spout Sendername width height bMemoryMode
  { world := { bus := r.bus,
               trace := wd.trace ++ [Call.GetImageSize Sendername width height bMemoryMode] },
    self := { self with spout := r.spout },
    ret := { Sendername := r.Sendername, width := r.width, height := r.height,
             bMemoryMode := r.bMemoryMode, ok := r.ok } }

/-- Method `void release()`. -/
def Receiver.release {ω σ : Type} (T : Transport ω σ) (wd : World ω) (self : Receiver σ) :
    Outcome ω (Receiver σ) Unit :=
  let r := T.ReleaseReceiver wd.bus self.spout
  { world := { bus := r.1, trace := wd.trace ++ [Call.ReleaseReceiver] },
    self := { self with spout := r.2 },
    ret := () }

/-! ## Two stand-ins for the library

The library is external, so concrete runs of the adapter need a stand-in for
it.  `constTransport b` answers `b` to everything; `loopback` keeps the frames
sent on a channel and hands them to the receivers of that channel. -/

/-- A transport without state that answers `answer` to every operation and
leaves every reference parameter as it was passed. -/
def constTransport (answer : Bool) : Transport Unit Unit where
  newSpout := ()
  deleteSpout := fun _ _ => ()
  CreateSender := fun _ _ _ _ _ => { bus := (), spout := (), ok := answer }
  UpdateSender := fun _ _ _ _ _ => { bus := (), spout := (), ok := answer }
  ReleaseSender := fun _ _ => ((), ())
  SendImage := fun _ _ _ _ _ _ _ _ => { bus := (), spout := (), ok := answer }
  SendTexture := fun _ _ _ _ _ _ _ _ => { bus := (), spout := (), ok := answer }
  CreateReceiver := fun _ _ n w h _ =>
    { bus := (), spout := (), Sendername := n, width := w, height := h, ok := answer }
  ReceiveTexture := fun _ _ n w h _ _ _ _ =>
    { bus := (), spout := (), Sendername := n, width := w, height := h, ok := answer }
  ReceiveImage := fun _ _ n w h px _ _ _ =>
    { bus := (), spout := (), Sendername := n, width := w, height := h, pixels := px,
      ok := answer }
  GetImageSize := fun _ _ n w h m =>
    { bus := (), spout := (), Sendername := n, width := w, height := h, bMemoryMode := m,
      ok := answer }
  ReleaseReceiver := fun _ _ => ((), ())

/-- One channel of the loopback bus: its name, its dimensions and the last
frame sent on it (empty until the first send). -/
structure Channel where
  name : String
  width : Nat
  height : Nat
  frame : List Byte
  deriving DecidableEq, Repr

/-- The channel called `name`, if the bus has one. -/
def findChannel (bus : List Channel) (name : String) : Option Channel :=
  bus.find? (fun c => decide (c.name = name))

/-- Replace the dimensions and the frame of the channel called `name`. -/
def storeFrame (bus : List Channel) (name : String) (width height : Nat)
    (frame : List Byte) : List Channel :=
  bus.map (fun c =>
    if c.name = name then { name := name, width := width, height := height, frame := frame }
    else c)

/-- Remove the channel called `name`. -/
def dropChannel (bus : List Channel) (name : String) : List Channel :=
  bus.filter (fun c => decide (c.name ≠ name))

/-- Cut a frame into rows of `rowBytes` bytes; `fuel` bounds the number of rows. -/
def rowsOf (rowBytes : Nat) : Nat → List Byte → List (List Byte)
  | 0, _ => []
  | _ + 1, [] => []
  | fuel + 1, b :: bs =>
    (b :: bs).take rowBytes :: rowsOf rowBytes fuel ((b :: bs).drop rowBytes)

/-- Flip a frame vertically: the rows of `rowBytes` bytes in reverse order. -/
def flipRows (rowBytes : Nat) (frame : List Byte) : List Byte :=
  if rowBytes = 0 then frame else (rowsOf rowBytes frame.length frame).reverse.flatten

/-- Modelled from the spec: the stub transport of the round-trip law of §8,
which loops sends into receives.  The bus is the list of live channels; a
handle remembers the channel it is attached to.  A sender stores the first
`width * height * bytes_per_pixel` bytes behind the pointer it is given; a
receiver attached to a channel whose dimensions match the caller's gets the
stored frame written over the start of its buffer. -/
def loopback : Transport (List Channel) (Option String) where
  newSpout := none
  deleteSpout := fun bus _ => bus
  CreateSender := fun bus h name w ht =>
    match findChannel bus name with
    | some _ => { bus := bus, spout := h, ok := false }
    | none =>
      { bus := bus ++ [{ name := name, width := w, height := ht, frame := [] }],
        spout := some name, ok := true }
  UpdateSender := fun bus h name w ht =>
    match h with
    | none => { bus := bus, spout := h, ok := false }
    | some old =>
      { bus := bus.map (fun c =>
          if c.name = old then { name := name, width := w, height := ht, frame := [] } else c),
        spout := some name, ok := true }
  ReleaseSender := fun bus h =>
    match h with
    | none => (bus, none)
    | some n => (dropChannel bus n, none)
  SendImage := fun bus h px w ht fmt inv _ =>
    match h with
    | none => { bus := bus, spout := h, ok := false }
    | some n =>
      match findChannel bus n with
      | none => { bus := bus, spout := h, ok := false }
      | some _ =>
        let frame := px.take (w * ht * bytes_per_pixel fmt)
        { bus := storeFrame bus n w ht
            (if inv then flipRows (w * bytes_per_pixel fmt) frame else frame),
          spout := h, ok := true }
  SendTexture := fun bus h _ _ _ _ _ _ =>
    { bus := bus, spout := h, ok := h.isSome }
  CreateReceiver := fun bus h name w ht useActive =>
    match (if useActive then bus.head? else findChannel bus name) with
    | none => { bus := bus, spout := h, Sendername := name, width := w, height := ht,
                ok := false }
    | some c => { bus := bus, spout := some c.name, Sendername := c.name, width := c.width,
                  height := c.height, ok := true }
  ReceiveTexture := fun bus h name w ht _ _ _ _ =>
    match h.bind (findChannel bus) with
    | none => { bus := bus, spout := h, Sendername := name, width := w, height := ht,
                ok := false }
    | some c => { bus := bus, spout := h, Sendername := c.name, width := c.width,
                  height := c.height, ok := true }
  ReceiveImage := fun bus h name w ht px fmt inv _ =>
    match h.bind (findChannel bus) with
    | none => { bus := bus, spout := h, Sendername := name, width := w, height := ht,
                pixels := px, ok := false }
    | some c =>
      if c.width = w ∧ c.height = ht ∧ c.frame ≠ [] then
        { bus := bus, spout := h, Sendername := c.name, width := w, height := ht,
          pixels := (if inv then flipRows (w * bytes_per_pixel fmt) c.frame else c.frame) ++
            px.drop c.frame.length,
          ok := true }
      else
        { bus := bus, spout := h, Sendername := c.name, width := c.width, height := c.height,
          pixels := px, ok := false }
  GetImageSize := fun bus h name w ht m =>
    match findChannel bus name with
    | none => { bus := bus, spout := h, Sendername := name, width := w, height := ht,
                bMemoryMode := m, ok := false }
    | some c => { bus := bus, spout := h, Sendername := name, width := c.width,
                  height := c.height, bMemoryMode := false, ok := true }
  ReleaseReceiver := fun bus _ => (bus, none)

/-- The number of `ReleaseSender` and `ReleaseReceiver` entries of a trace. -/
def releaseCount (trace : List Call) : Nat :=
  (trace.filter (fun c => decide (c = Call.ReleaseSender ∨ c = Call.ReleaseReceiver))).length

/-- The world before anything has happened on the bus `bus`. -/
def World.start {ω : Type} (bus : ω) : World ω :=
  { bus := bus, trace := [] }

/-! ## Scenarios -/

/-- Scenario S1: construct a `Sender`; `create`; `send_image` with the default
`bInvert = false` and `HostFBO = 0`; `release`; destroy.  Returns the two
booleans and the world left behind. -/
def senderSession {ω σ : Type} (T : Transport ω σ) (bus : ω) (width0 height0 : Nat)
    (name : String) (width height : Nat) (pixels : List Byte) (glFormat : GLenum) :
    Bool × Bool × World ω :=
  let s0 := Sender.new T width0 height0
  let c := Sender.create T (World.start bus) s0 name width height
  let s := Sender.send_image T c.world c.self pixels width height glFormat false 0
  let r := Sender.release T s.world s.self
  (c.ret, s.ret, Sender.delete T r.world r.self)

/-- The round trip of §8: a `Sender` creates the channel `name` and sends the
frame `F`; a `Receiver` attaches to `name` and calls `receive_image` with its
own buffer `B` and the dimensions it was told, `bInvert = false` on both sides.
Returns the three booleans of `create`, `send_image`, `create`, and what the
receiving caller holds after `receive_image`. -/
def roundTrip {ω σ : Type} (T : Transport ω σ) (bus : ω) (name : String) (W H : Nat)
    (Fmt : GLenum) (F B : List Byte) : Bool × Bool × Bool × ImageOut :=
  let s0 := Sender.new T 0 0
  let c := Sender.create T (World.start bus) s0 name W H
  let s := Sender.send_image T c.world c.self F W H Fmt false 0
  let r0 := Receiver.new T "" 0 0
  let rc := Receiver.create T s.world r0 name 0 0 false
  let ri := Receiver.receive_image T rc.world rc.self rc.ret.Sendername rc.ret.width
    rc.ret.height B Fmt false 0
  (c.ret, s.ret, rc.ret.ok, ri.ret)

/-- A `Sender` right after `create("chan-a", 1920, 1080)` on the empty loopback
bus: the call returned `true`, so the endpoint is what the spec calls Bound. -/
def boundSender : Outcome (List Channel) (Sender (Option String)) Bool :=
  Sender.create loopback (World.start []) (Sender.new loopback 0 0) "chan-a" 1920 1080

/-- A loopback bus with one live producer, "prod-1" at 800x600 (scenario S5). -/
def liveProducer : List Channel :=
  [{ name := "prod-1", width := 800, height := 600, frame := [] }]

/-- A `Receiver` right after `create("prod-1", w_out, h_out)` with the producer
of `liveProducer` present: the call returned `true`, so the endpoint is what
the spec calls Bound.  The fields of the fresh object and the two variables
passed by reference held 0 before the call. -/
def boundReceiver : Outcome (List Channel) (Receiver (Option String)) DimOut :=
  Receiver.create loopback (World.start liveProducer) (Receiver.new loopback "" 0 0)
    "prod-1" 0 0 false

/-! ## Theorems -/

/-- C1 (as stated, refuted): on the transport that answers `true`, `send_image`
on a freshly constructed `Sender` does not return `false` with an untouched
trace: it returns `true` and the trace holds the `SendImage` call. -/
theorem fresh_sender_send_image_reaches_transport :
    ¬ ((Sender.send_image (constTransport true) (World.start ())
          (Sender.new (constTransport true) 0 0) [] 0 0 GL_RGBA false 0).ret = false ∧
       (Sender.send_image (constTransport true) (World.start ())
          (Sender.new (constTransport true) 0 0) [] 0 0 GL_RGBA false 0).world.trace =
         (World.start ()).trace) := by
  decide

/-- C1 (amended): on a freshly constructed endpoint, whatever its
uninitialised fields hold, each of `Sender.send_image`, `Sender.send_texture`,
`Sender.update`, `Receiver.receive_image`, `Receiver.receive_texture` and
`Receiver.get_image_size` appends exactly one call of its own kind to the
trace and returns the boolean the transport answers on the fresh handle. -/
theorem fresh_endpoint_forwards {ω σ : Type} (T : Transport ω σ) (wd : World ω)
    (name0 name : String) (width0 height0 width height : Nat) (pixels : List Byte)
    (glFormat : GLenum) (TextureID TextureTarget HostFBO : GLuint)
    (bInvert bMemoryMode : Bool) :
    ((Sender.send_image T wd (Sender.new T width0 height0) pixels width height glFormat
          bInvert HostFBO).world.trace =
        wd.trace ++ [Call.SendImage pixels width height glFormat bInvert HostFBO] ∧
      (Sender.send_image T wd (Sender.new T width0 height0) pixels width height glFormat
          bInvert HostFBO).ret =
        (T.SendImage wd.bus T.newSpout pixels width height glFormat bInvert HostFBO).ok) ∧
    ((Sender.send_texture T wd (Sender.new T width0 height0) TextureID TextureTarget width
          height bInvert HostFBO).world.trace =
        wd.trace ++ [Call.SendTexture TextureID TextureTarget width height bInvert HostFBO] ∧
      (Sender.send_texture T wd (Sender.new T width0 height0) TextureID TextureTarget width
          height bInvert HostFBO).ret =
        (T.SendTexture wd.bus T.newSpout TextureID TextureTarget width height bInvert
          HostFBO).ok) ∧
    ((Sender.update T wd (Sender.new T width0 height0) name width height).world.trace =
        wd.trace ++ [Call.UpdateSender name width height] ∧
      (Sender.update T wd (Sender.new T width0 height0) name width height).ret =
        (T.UpdateSender wd.bus T.newSpout name width height).ok) ∧
    ((Receiver.receive_image T wd (Receiver.new T name0 width0 height0) name width height
          pixels glFormat bInvert HostFBO).world.trace =
        wd.trace ++ [Call.ReceiveImage name width height pixels glFormat bInvert HostFBO] ∧
      (Receiver.receive_image T wd (Receiver.new T name0 width0 height0) name width height
          pixels glFormat bInvert HostFBO).ret.ok =
        (T.ReceiveImage wd.bus T.newSpout name width height pixels glFormat bInvert
          HostFBO).ok) ∧
    ((Receiver.receive_texture T wd (Receiver.new T name0 width0 height0) name width height
          TextureID TextureTarget bInvert HostFBO).world.trace =
        wd.trace ++
          [Call.ReceiveTexture name width height TextureID TextureTarget bInvert HostFBO] ∧
      (Receiver.receive_texture T wd (Receiver.new T name0 width0 height0) name width height
          TextureID TextureTarget bInvert HostFBO).ret.ok =
        (T.ReceiveTexture wd.bus T.newSpout name width height TextureID TextureTarget bInvert
          HostFBO).ok) ∧
    ((Receiver.get_image_size T wd (Receiver.new T name0 width0 height0) name width height
          bMemoryMode).world.trace =
        wd.trace ++ [Call.GetImageSize name width height bMemoryMode] ∧
      (Receiver.get_image_size T wd (Receiver.new T name0 width0 height0) name width height
          bMemoryMode).ret.ok =
        (T.GetImageSize wd.bus T.newSpout name width height bMemoryMode).ok) :=
  ⟨⟨rfl, rfl⟩, ⟨rfl, rfl⟩, ⟨rfl, rfl⟩, ⟨rfl, rfl⟩, ⟨rfl, rfl⟩, ⟨rfl, rfl⟩⟩

/-- C2 (as stated, refuted): a `Sender` whose `create` succeeded is handed an
empty pixel vector for a 1x1 RGBA frame (0 bytes instead of 4); on the
transport that answers `true`, `send_image` does not return `false`. -/
theorem undersized_send_image_returns_true :
    (Sender.create (constTransport true) (World.start ())
        (Sender.new (constTransport true) 0 0) "chan-a" 1 1).ret = true ∧
    ([] : List Byte).length < 1 * 1 * bytes_per_pixel GL_RGBA ∧
    ¬ ((Sender.send_image (constTransport true)
          (Sender.create (constTransport true) (World.start ())
            (Sender.new (constTransport true) 0 0) "chan-a" 1 1).world
          (Sender.create (constTransport true) (World.start ())
            (Sender.new (constTransport true) 0 0) "chan-a" 1 1).self
          [] 1 1 GL_RGBA false 0).ret = false) := by
  decide

/-- C2 (amended): for every `Sender`, bound or not, and every pixel vector
shorter than `width * height * bytes_per_pixel glFormat`, `send_image` makes no
length check: it appends the `SendImage` call with the vector and the stated
dimensions as given and returns the boolean the transport answers. -/
theorem send_image_undersized_forwards {ω σ : Type} (T : Transport ω σ) (wd : World ω)
    (self : Sender σ) (pixels : List Byte) (width height : Nat) (glFormat : GLenum)
    (bInvert : Bool) (HostFBO : GLuint)
    (_hshort : pixels.length < width * height * bytes_per_pixel glFormat) :
    (Sender.send_image T wd self pixels width height glFormat bInvert HostFBO).world.trace =
        wd.trace ++ [Call.SendImage pixels width height glFormat bInvert HostFBO] ∧
    (Sender.send_image T wd self pixels width height glFormat bInvert HostFBO).ret =
        (T.SendImage wd.bus self.spout pixels width height glFormat bInvert HostFBO).ok :=
  ⟨rfl, rfl⟩

/-- Witness of `send_image_undersized_forwards`: three bytes for a 1x1 RGBA
frame on the loopback transport, on a sender bound to "chan-a". -/
theorem send_image_undersized_forwards_witness :
    [7, 8, 9].length < 1 * 1 * bytes_per_pixel GL_RGBA ∧
    (Sender.send_image loopback
        { bus := [{ name := "chan-a", width := 1, height := 1, frame := [] }], trace := [] }
        { spout := some "chan-a", width := 0, height := 0 }
        [7, 8, 9] 1 1 GL_RGBA false 0).world.trace =
      [] ++ [Call.SendImage [7, 8, 9] 1 1 GL_RGBA false 0] ∧
    (Sender.send_image loopback
        { bus := [{ name := "chan-a", width := 1, height := 1, frame := [] }], trace := [] }
        { spout := some "chan-a", width := 0, height := 0 }
        [7, 8, 9] 1 1 GL_RGBA false 0).ret =
      (loopback.SendImage [{ name := "chan-a", width := 1, height := 1, frame := [] }]
        (some "chan-a") [7, 8, 9] 1 1 GL_RGBA false 0).ok :=
  ⟨by decide,
   send_image_undersized_forwards loopback
     { bus := [{ name := "chan-a", width := 1, height := 1, frame := [] }], trace := [] }
     { spout := some "chan-a", width := 0, height := 0 }
     [7, 8, 9] 1 1 GL_RGBA false 0 (by decide)⟩

/-- C3 (the code at the failing input): a `Sender` and a `Receiver` whose
`create` returned `true` are destroyed without a prior `release`; the trace
after destruction is the trace before it, with no `ReleaseSender` and no
`ReleaseReceiver` in it. -/
theorem destroy_bound_endpoint_releases_nothing :
    (boundSender.ret = true ∧
      (Sender.delete loopback boundSender.world boundSender.self).trace =
        [Call.CreateSender "chan-a" 1920 1080] ∧
      releaseCount (Sender.delete loopback boundSender.world boundSender.self).trace = 0) ∧
    (boundReceiver.ret.ok = true ∧
      (Receiver.delete loopback boundReceiver.world boundReceiver.self).trace =
        [Call.CreateReceiver "prod-1" 0 0 false] ∧
      releaseCount (Receiver.delete loopback boundReceiver.world boundReceiver.self).trace
        = 0) := by
  decide

/-- C4 (as stated, refuted): on a `Sender` whose `create` returned `true`, two
`release` calls in a row do not add exactly one release call to the trace
(they add two), and `release` on a freshly constructed `Sender` does not leave
the trace as it was. -/
theorem release_twice_calls_transport_twice :
    boundSender.ret = true ∧
    ¬ (releaseCount
          (Sender.release loopback
            (Sender.release loopback boundSender.world boundSender.self).world
            (Sender.release loopback boundSender.world boundSender.self).self).world.trace =
        releaseCount boundSender.world.trace + 1) ∧
    ¬ ((Sender.release loopback (World.start []) (Sender.new loopback 0 0)).world.trace =
        (World.start ([] : List Channel)).trace) := by
  decide

/-- C4 (amended): `release` keeps no record of whether the endpoint is bound.
For every `Sender` and every `Receiver`, in any state, one `release` appends
exactly one `ReleaseSender` (`ReleaseReceiver`) to the trace and two in a row
append exactly two; the fields of the endpoint other than the handle are the
same after two calls as after one and as before, and the handle and the bus
after two calls are what the transport's release leaves when applied twice. -/
theorem release_always_forwards {ω σ : Type} (T : Transport ω σ) (wd : World ω)
    (s : Sender σ) (r : Receiver σ) :
    ((Sender.release T wd s).world.trace = wd.trace ++ [Call.ReleaseSender] ∧
      (Sender.release T (Sender.release T wd s).world (Sender.release T wd s).self).world.trace
        = wd.trace ++ [Call.ReleaseSender, Call.ReleaseSender] ∧
      (Sender.release T (Sender.release T wd s).world (Sender.release T wd s).self).self =
        { s with spout :=
            (T.ReleaseSender (T.ReleaseSender wd.bus s.spout).1
              (T.ReleaseSender wd.bus s.spout).2).2 } ∧
      (Sender.release T wd s).self = { s with spout := (T.ReleaseSender wd.bus s.spout).2 } ∧
      (Sender.release T (Sender.release T wd s).world (Sender.release T wd s).self).world.bus =
        (T.ReleaseSender (T.ReleaseSender wd.bus s.spout).1
          (T.ReleaseSender wd.bus s.spout).2).1) ∧
    ((Receiver.release T wd r).world.trace = wd.trace ++ [Call.ReleaseReceiver] ∧
      (Receiver.release T (Receiver.release T wd r).world
          (Receiver.release T wd r).self).world.trace
        = wd.trace ++ [Call.ReleaseReceiver, Call.ReleaseReceiver] ∧
      (Receiver.release T (Receiver.release T wd r).world (Receiver.release T wd r).self).self =
        { r with spout :=
            (T.ReleaseReceiver (T.ReleaseReceiver wd.bus r.spout).1
              (T.ReleaseReceiver wd.bus r.spout).2).2 } ∧
      (Receiver.release T wd r).self =
        { r with spout := (T.ReleaseReceiver wd.bus r.spout).2 } ∧
      (Receiver.release T (Receiver.release T wd r).world
          (Receiver.release T wd r).self).world.bus =
        (T.ReleaseReceiver (T.ReleaseReceiver wd.bus r.spout).1
          (T.ReleaseReceiver wd.bus r.spout).2).1) := by
  refine ⟨⟨rfl, ?_, rfl, rfl, rfl⟩, ⟨rfl, ?_, rfl, rfl, rfl⟩⟩
  · simp [Sender.release]
  · simp [Receiver.release]

/-- The loopback transport does loop sends into receives: for every channel
name, dimensions, format, non-empty frame `F` of `W * H * bytes_per_pixel Fmt`
bytes and caller buffer `B` of that length, the four calls of `roundTrip`
return `true` and the transport writes exactly `F` into the buffer it is
given, while what the receiving caller holds afterwards is `B`. -/
theorem loopback_round_trip (name : String) (W H : Nat) (Fmt : GLenum) (F B : List Byte)
    (hF : F.length = W * H * bytes_per_pixel Fmt) (hne : F ≠ []) (hB : B.length = F.length) :
    roundTrip loopback [] name W H Fmt F B =
      (true, true, true,
        { Sendername := name, width := W, height := H, pixels := B, ok := true }) ∧
    (loopback.ReceiveImage [{ name := name, width := W, height := H, frame := F }]
        (some name) name W H B Fmt false 0).pixels = F := by
  have hdrop : List.drop F.length B = [] := by
    rw [List.drop_eq_nil_iff]; omega
  have htake : List.take (W * H * bytes_per_pixel Fmt) F = F := by
    rw [← hF]; exact List.take_length F
  constructor
  · simp [roundTrip, loopback, Sender.create, Sender.send_image, Sender.new, Receiver.new,
      Receiver.create, Receiver.receive_image, World.start, findChannel, storeFrame, htake, hne]
  · simp [loopback, findChannel, hne, hdrop]

/-- C5 (the code at the failing input): over the loopback transport, a sender
creates "chan-a" at 1x1 and sends the RGBA frame `[1, 2, 3, 4]`; a receiver
attaches to "chan-a" and calls `receive_image` with the four-byte buffer
`[0, 0, 0, 0]`.  All four calls return `true`, the transport hands the frame
`[1, 2, 3, 4]` to the buffer it is given, and the caller's buffer is still
`[0, 0, 0, 0]`, not the frame. -/
theorem round_trip_loses_frame :
    roundTrip loopback [] "chan-a" 1 1 GL_RGBA [1, 2, 3, 4] [0, 0, 0, 0] =
      (true, true, true,
        { Sendername := "chan-a", width := 1, height := 1, pixels := [0, 0, 0, 0],
          ok := true }) ∧
    [1, 2, 3, 4].length = 1 * 1 * bytes_per_pixel GL_RGBA ∧
    (loopback.ReceiveImage [{ name := "chan-a", width := 1, height := 1, frame := [1, 2, 3, 4] }]
        (some "chan-a") "chan-a" 1 1 [0, 0, 0, 0] GL_RGBA false 0).pixels = [1, 2, 3, 4] ∧
    (roundTrip loopback [] "chan-a" 1 1 GL_RGBA [1, 2, 3, 4] [0, 0, 0, 0]).2.2.2.pixels ≠
      [1, 2, 3, 4] := by
  decide

/-- C6 (the code at the failing input): with the producer "prod-1" live at
800x600, `Receiver.create("prod-1", w_out, h_out)` on a fresh receiver returns
`true` and the transport writes "prod-1", 800 and 600 into the caller's
`Sendername`, `w_out` and `h_out`; the fields `name`, `width` and `height` of
the endpoint still hold what the fresh object held ("", 0 and 0), so they do
not mirror the out-parameters and the name field is not the channel attached
to. -/
theorem receiver_create_fields_not_mirrored :
    boundReceiver.ret = { Sendername := "prod-1", width := 800, height := 600, ok := true } ∧
    (boundReceiver.self.name = "" ∧ boundReceiver.self.width = 0 ∧
      boundReceiver.self.height = 0) ∧
    ¬ (boundReceiver.self.width = boundReceiver.ret.width ∧
       boundReceiver.self.height = boundReceiver.ret.height ∧
       boundReceiver.self.name = boundReceiver.ret.Sendername) := by
  decide

/-- C7: for every transport that accepts the `create` and the `send_image`,
and every name, width, height, format and pixel vector, the session
construct; `create(name, w, h)`; `send_image(buf, w, h, fmt)`; `release()`;
destroy leaves the trace `CreateSender`, `SendImage`, `ReleaseSender`, each
once, in that order, and nothing else. -/
theorem sender_session_trace {ω σ : Type} (T : Transport ω σ) (bus : ω)
    (width0 height0 : Nat) (name : String) (width height : Nat) (pixels : List Byte)
    (glFormat : GLenum)
    (_hcreate : (senderSession T bus width0 height0 name width height pixels glFormat).1 = true)
    (_hsend : (senderSession T bus width0 height0 name width height pixels glFormat).2.1 = true) :
    (senderSession T bus width0 height0 name width height pixels glFormat).2.2.trace =
      [Call.CreateSender name width height,
       Call.SendImage pixels width height glFormat false 0,
       Call.ReleaseSender] :=
  rfl

/-- Witness of `sender_session_trace`: scenario S1, "chan-a" at 1920x1080 with
an RGBA buffer of 1920 * 1080 * 4 bytes, on the transport that answers `true`. -/
theorem sender_session_trace_witness :
    (senderSession (constTransport true) () 0 0 "chan-a" 1920 1080
        (List.replicate (1920 * 1080 * 4) 0) GL_RGBA).1 = true ∧
    (senderSession (constTransport true) () 0 0 "chan-a" 1920 1080
        (List.replicate (1920 * 1080 * 4) 0) GL_RGBA).2.1 = true ∧
    (senderSession (constTransport true) () 0 0 "chan-a" 1920 1080
        (List.replicate (1920 * 1080 * 4) 0) GL_RGBA).2.2.trace =
      [Call.CreateSender "chan-a" 1920 1080,
       Call.SendImage (List.replicate (1920 * 1080 * 4) 0) 1920 1080 GL_RGBA false 0,
       Call.ReleaseSender] :=
  ⟨rfl, rfl,
   sender_session_trace (constTransport true) () 0 0 "chan-a" 1920 1080
     (List.replicate (1920 * 1080 * 4) 0) GL_RGBA rfl rfl⟩

/-- C8 (as stated, refuted): on the transport that answers `true`,
`Sender.create("", 0, 0)` does not return `false` with no `CreateSender` in the
trace: it returns `true` and the trace holds `CreateSender "" 0 0`. -/
theorem sender_create_accepts_empty_name_and_zero_size :
    ¬ ((Sender.create (constTransport true) (World.start ())
          (Sender.new (constTransport true) 0 0) "" 0 0).ret = false ∧
       Call.CreateSender "" 0 0 ∉
         (Sender.create (constTransport true) (World.start ())
           (Sender.new (constTransport true) 0 0) "" 0 0).world.trace) := by
  decide

/-- C8 (amended): `Sender.create` validates nothing.  For every `Sender` and
every call in which `name` is empty or `width = 0` or `height = 0`, the call
appends exactly one `CreateSender` with those arguments to the trace and
returns the boolean the transport answers; the fields `width` and `height` of
the endpoint are unchanged and its handle is the one the transport leaves. -/
theorem sender_create_degenerate_forwards {ω σ : Type} (T : Transport ω σ) (wd : World ω)
    (self : Sender σ) (name : String) (width height : Nat)
    (_hbad : name = "" ∨ width = 0 ∨ height = 0) :
    (Sender.create T wd self name width height).world.trace =
        wd.trace ++ [Call.CreateSender name width height] ∧
    (Sender.create T wd self name width height).ret =
        (T.CreateSender wd.bus self.spout name width height).ok ∧
    (Sender.create T wd self name width height).self =
        { self with spout := (T.CreateSender wd.bus self.spout name width height).spout } :=
  ⟨rfl, rfl, rfl⟩

/-- Witness of `sender_create_degenerate_forwards`: `create("", 0, 480)` on a
fresh sender over the empty loopback bus. -/
theorem sender_create_degenerate_forwards_witness :
    (("" : String) = "" ∨ 0 = 0 ∨ 480 = 0) ∧
    (Sender.create loopback (World.start []) (Sender.new loopback 0 0) "" 0 480).world.trace =
        (World.start ([] : List Channel)).trace ++ [Call.CreateSender "" 0 480] ∧
    (Sender.create loopback (World.start []) (Sender.new loopback 0 0) "" 0 480).ret =
        (loopback.CreateSender (World.start ([] : List Channel)).bus
          (Sender.new loopback 0 0).spout "" 0 480).ok ∧
    (Sender.create loopback (World.start []) (Sender.new loopback 0 0) "" 0 480).self =
        { Sender.new loopback 0 0 with
          spout := (loopback.CreateSender (World.start ([] : List Channel)).bus
            (Sender.new loopback 0 0).spout "" 0 480).spout } :=
  ⟨Or.inl rfl,
   sender_create_degenerate_forwards loopback (World.start []) (Sender.new loopback 0 0)
     "" 0 480 (Or.inl rfl)⟩

/-- C9: the adapter is a pure forwarder.  For every transport, world, endpoint
state and argument tuple, each of `Sender.create`, `update`, `send_image`,
`send_texture` and `Receiver.create`, `receive_texture`, `receive_image`,
`get_image_size` appends exactly one call of the corresponding kind to the
trace, carrying the caller's arguments unchanged, and returns exactly the
boolean the transport answers to that call on the endpoint's handle; in
particular a `send_image` after a `create` forwards its own dimensions, whatever
those given to `create` were. -/
theorem adapter_is_pure_forwarder {ω σ : Type} (T : Transport ω σ) (wd : World ω)
    (s : Sender σ) (r : Receiver σ) (name : String) (width height width2 height2 : Nat)
    (pixels : List Byte) (glFormat : GLenum) (TextureID TextureTarget HostFBO : GLuint)
    (bInvert bUseActive bMemoryMode : Bool) :
    ((Sender.create T wd s name width height).world.trace =
        wd.trace ++ [Call.CreateSender name width height] ∧
      (Sender.create T wd s name width height).ret =
        (T.CreateSender wd.bus s.spout name width height).ok) ∧
    ((Sender.update T wd s name width height).world.trace =
        wd.trace ++ [Call.UpdateSender name width height] ∧
      (Sender.update T wd s name width height).ret =
        (T.UpdateSender wd.bus s.spout name width height).ok) ∧
    ((Sender.send_image T wd s pixels width height glFormat bInvert HostFBO).world.trace =
        wd.trace ++ [Call.SendImage pixels width height glFormat bInvert HostFBO] ∧
      (Sender.send_image T wd s pixels width height glFormat bInvert HostFBO).ret =
        (T.SendImage wd.bus s.spout pixels width height glFormat bInvert HostFBO).ok) ∧
    ((Sender.send_texture T wd s TextureID TextureTarget width height bInvert
          HostFBO).world.trace =
        wd.trace ++ [Call.SendTexture TextureID TextureTarget width height bInvert HostFBO] ∧
      (Sender.send_texture T wd s TextureID TextureTarget width height bInvert HostFBO).ret =
        (T.SendTexture wd.bus s.spout TextureID TextureTarget width height bInvert
          HostFBO).ok) ∧
    ((Receiver.create T wd r name width height bUseActive).world.trace =
        wd.trace ++ [Call.CreateReceiver name width height bUseActive] ∧
      (Receiver.create T wd r name width height bUseActive).ret.ok =
        (T.CreateReceiver wd.bus r.spout name width height bUseActive).ok) ∧
    ((Receiver.receive_texture T wd r name width height TextureID TextureTarget bInvert
          HostFBO).world.trace =
        wd.trace ++
          [Call.ReceiveTexture name width height TextureID TextureTarget bInvert HostFBO] ∧
      (Receiver.receive_texture T wd r name width height TextureID TextureTarget bInvert
          HostFBO).ret.ok =
        (T.ReceiveTexture wd.bus r.spout name width height TextureID TextureTarget bInvert
          HostFBO).ok) ∧
    ((Receiver.receive_image T wd r name width height pixels glFormat bInvert
          HostFBO).world.trace =
        wd.trace ++ [Call.ReceiveImage name width height pixels glFormat bInvert HostFBO] ∧
      (Receiver.receive_image T wd r name width height pixels glFormat bInvert
          HostFBO).ret.ok =
        (T.ReceiveImage wd.bus r.spout name width height pixels glFormat bInvert
          HostFBO).ok) ∧
    ((Receiver.get_image_size T wd r name width height bMemoryMode).world.trace =
        wd.trace ++ [Call.GetImageSize name width height bMemoryMode] ∧
      (Receiver.get_image_size T wd r name width height bMemoryMode).ret.ok =
        (T.GetImageSize wd.bus r.spout name width height bMemoryMode).ok) ∧
    (Sender.send_image T (Sender.create T wd s name width height).world
        (Sender.create T wd s name width height).self pixels width2 height2 glFormat bInvert
        HostFBO).world.trace =
      wd.trace ++ [Call.CreateSender name width height,
        Call.SendImage pixels width2 height2 glFormat bInvert HostFBO] := by
  refine ⟨⟨rfl, rfl⟩, ⟨rfl, rfl⟩, ⟨rfl, rfl⟩, ⟨rfl, rfl⟩, ⟨rfl, rfl⟩, ⟨rfl, rfl⟩, ⟨rfl, rfl⟩,
    ⟨rfl, rfl⟩, ?_⟩
  simp [Sender.send_image, Sender.create]

/-- C10: for every transport, world, `Receiver` state and argument tuple,
the pixel vector the caller of `receive_image` holds after the call equals the
one it passed, whatever the transport wrote and whatever boolean came back:
the transport writes into the by-value copy, which does not outlive the call. -/
theorem receive_image_keeps_caller_pixels {ω σ : Type} (T : Transport ω σ) (wd : World ω)
    (self : Receiver σ) (Sendername : String) (width height : Nat) (pixels : List Byte)
    (glFormat : GLenum) (bInvert : Bool) (HostFBO : GLuint) :
    (Receiver.receive_image T wd self Sendername width height pixels glFormat bInvert
        HostFBO).ret.pixels = pixels :=
  rfl

end Spout
